import Mathlib

/-!
  Verification development for the incremental covariance calculators
  (naive, Kahan-compensated, Welford online mean-centering) and their
  drive loop.  The C++ classes are shallowly embedded over exact rational
  arithmetic: each class becomes a structure, each method a pure function
  (mutating methods return the updated state), `size_t` counts become `ℕ`,
  and `double` values become `ℚ`.
-/

namespace Covariation

/-- State of the C++ class `TKahanAccumulator`: a running total `Sum` and a
pending correction term `Addition`. -/
structure TKahanAccumulator where
  Sum : ℚ
  Addition : ℚ
deriving DecidableEq, Repr

/-- The C++ constructor `TKahanAccumulator(value = 0.)`. -/
def TKahanAccumulator.mk0 (value : ℚ) : TKahanAccumulator :=
  { Sum := value, Addition := 0 }

/-- The C++ `operator += (const double value)`:
`y = value - Addition; t = Sum + y; Addition = (t - Sum) - y; Sum = t`. -/
def TKahanAccumulator.addValue (a : TKahanAccumulator) (value : ℚ) :
    TKahanAccumulator :=
  let y := value - a.Addition
  let t := a.Sum + y
  { Sum := t, Addition := (t - a.Sum) - y }

/-- The C++ conversion `operator double()`: returns `Sum + Addition`. -/
def TKahanAccumulator.toRat (a : TKahanAccumulator) : ℚ :=
  a.Sum + a.Addition

/-- The accumulator operations a `TTypedCovariationCalculator<T>` instance
uses on its `TAccumulatorType`: construction from `0.`, `operator +=` with a
double, and the conversion to double. -/
structure AccOps (α : Type) where
  init : α
  add : α → ℚ → α
  val : α → ℚ

/-- The plain-`double` accumulator used by `TDummyCovariationCalculator`. -/
def ratOps : AccOps ℚ :=
  { init := 0, add := fun s v => s + v, val := fun s => s }

/-- The `TKahanAccumulator` operations used by `TKahanCovariationCalculator`. -/
def kahanOps : AccOps TKahanAccumulator :=
  { init := TKahanAccumulator.mk0 0
    add := TKahanAccumulator.addValue
    val := TKahanAccumulator.toRat }

/-- State of the C++ template `TTypedCovariationCalculator<TAccumulatorType>`:
a sample count and three running accumulators. -/
structure TTypedCovariationCalculator (α : Type) where
  Count : ℕ
  SumX : α
  SumY : α
  SumProducts : α

/-- Fresh `TTypedCovariationCalculator` state (in-class initializers:
`Count = 0`, accumulators constructed from `0.`). -/
def TTypedCovariationCalculator.start (ops : AccOps α) :
    TTypedCovariationCalculator α :=
  { Count := 0, SumX := ops.init, SumY := ops.init, SumProducts := ops.init }

/-- `TTypedCovariationCalculator::Add(x, y)`:
`++Count; SumX += x; SumY += y; SumProducts += x * y`. -/
def TTypedCovariationCalculator.addPair (ops : AccOps α)
    (s : TTypedCovariationCalculator α) (x y : ℚ) :
    TTypedCovariationCalculator α :=
  { Count := s.Count + 1
    SumX := ops.add s.SumX x
    SumY := ops.add s.SumY y
    SumProducts := ops.add s.SumProducts (x * y) }

/-- `TTypedCovariationCalculator::Covariation()`:
`((double) SumProducts - (double) SumX * (double) SumY / Count) / Count`.
(When `Count = 0` the C++ divides by zero anyway; rational division by zero
yields `0` here, standing for the junk value the unguarded division produces.) -/
def TTypedCovariationCalculator.covariation (ops : AccOps α)
    (s : TTypedCovariationCalculator α) : ℚ :=
  (ops.val s.SumProducts - ops.val s.SumX * ops.val s.SumY / (s.Count : ℚ)) /
    (s.Count : ℚ)

/-- The `Covariation` method as a state transformer: the method is `const`,
its body only reads fields, so the state component returned is the input
state unchanged. -/
def TTypedCovariationCalculator.covariationOp (ops : AccOps α)
    (s : TTypedCovariationCalculator α) :
    ℚ × TTypedCovariationCalculator α :=
  (s.covariation ops, s)

/-- `TDummyCovariationCalculator::Name()` as a state transformer
(`const` method returning a constant string). -/
def TTypedCovariationCalculator.nameOp (tag : String)
    (s : TTypedCovariationCalculator α) :
    String × TTypedCovariationCalculator α :=
  (tag, s)

/-- State of the C++ class `TWelfordCovariationCalculator`. -/
structure TWelfordCovariationCalculator where
  Count : ℕ
  MeanX : ℚ
  MeanY : ℚ
  SumProducts : ℚ
deriving DecidableEq, Repr

/-- Fresh `TWelfordCovariationCalculator` state (all in-class initializers 0). -/
def TWelfordCovariationCalculator.start : TWelfordCovariationCalculator :=
  { Count := 0, MeanX := 0, MeanY := 0, SumProducts := 0 }

/-- `TWelfordCovariationCalculator::Add(x, y)`, statement by statement:
`++Count;`
`MeanX += (x - MeanX) / Count;`
`SumProducts += (x - MeanX) * (y - MeanY);`  (uses the already-updated MeanX)
`MeanY += (y - MeanY) / Count;` -/
def TWelfordCovariationCalculator.addPair (s : TWelfordCovariationCalculator)
    (x y : ℚ) : TWelfordCovariationCalculator :=
  let count := s.Count + 1
  let meanX := s.MeanX + (x - s.MeanX) / (count : ℚ)
  let sumProducts := s.SumProducts + (x - meanX) * (y - s.MeanY)
  let meanY := s.MeanY + (y - s.MeanY) / (count : ℚ)
  { Count := count, MeanX := meanX, MeanY := meanY, SumProducts := sumProducts }

/-- `TWelfordCovariationCalculator::Covariation()`: `SumProducts / Count`. -/
def TWelfordCovariationCalculator.covariation
    (s : TWelfordCovariationCalculator) : ℚ :=
  s.SumProducts / (s.Count : ℚ)

/-- The Welford `Covariation` method as a state transformer (`const` method:
only field reads, state returned unchanged). -/
def TWelfordCovariationCalculator.covariationOp
    (s : TWelfordCovariationCalculator) :
    ℚ × TWelfordCovariationCalculator :=
  (s.covariation, s)

/-- `TWelfordCovariationCalculator::Name()` as a state transformer. -/
def TWelfordCovariationCalculator.nameOp
    (s : TWelfordCovariationCalculator) :
    String × TWelfordCovariationCalculator :=
  ("Welford", s)

/-- The update order claimed by the spec (§4.2) for the online variant:
`deltaX = x - meanX`; `C += deltaX * (y - meanY)` with the PRE-update values
of both means; then `meanY += (y - meanY) / n`; then `meanX += deltaX / n`.
Written from the spec's words, to be compared with the source's
`TWelfordCovariationCalculator.addPair`. -/
def welfordAddSpecOrder (s : TWelfordCovariationCalculator) (x y : ℚ) :
    TWelfordCovariationCalculator :=
  let count := s.Count + 1
  let deltaX := x - s.MeanX
  let sumProducts := s.SumProducts + deltaX * (y - s.MeanY)
  let meanY := s.MeanY + (y - s.MeanY) / (count : ℚ)
  let meanX := s.MeanX + deltaX / (count : ℚ)
  { Count := count, MeanX := meanX, MeanY := meanY, SumProducts := sumProducts }

/-- Run a calculator over a list of sample pairs from the fresh state. -/
def dummyRun (samples : List (ℚ × ℚ)) : TTypedCovariationCalculator ℚ :=
  samples.foldl (fun s p => s.addPair ratOps p.1 p.2)
    (TTypedCovariationCalculator.start ratOps)

/-- Run the Kahan-compensated calculator over a list of sample pairs. -/
def kahanRun (samples : List (ℚ × ℚ)) :
    TTypedCovariationCalculator TKahanAccumulator :=
  samples.foldl (fun s p => s.addPair kahanOps p.1 p.2)
    (TTypedCovariationCalculator.start kahanOps)

/-- Run the Welford calculator over a list of sample pairs. -/
def welfordRun (samples : List (ℚ × ℚ)) : TWelfordCovariationCalculator :=
  samples.foldl (fun s p => s.addPair p.1 p.2)
    TWelfordCovariationCalculator.start

/-- C1 counterexample.  The claim says `Add` updates the cross-product
aggregate `C` before either mean is advanced, using the pre-update values of
both means.  In the source, `MeanX` is advanced FIRST and the cross-product
uses the post-update `MeanX`: already on the very first sample `(1,1)` the
source leaves `SumProducts = 0` while the claimed order would leave it `1`,
and after `(1,1), (2,2), (3,3)` the source's covariance is `2/3` while the
claimed order yields `17/12`. -/
theorem welford_add_order_claim_false :
    (TWelfordCovariationCalculator.start.addPair 1 1).SumProducts = 0 ∧
    (welfordAddSpecOrder TWelfordCovariationCalculator.start 1 1).SumProducts
      = 1 ∧
    TWelfordCovariationCalculator.start.addPair 1 1 ≠
      welfordAddSpecOrder TWelfordCovariationCalculator.start 1 1 := by
  refine ⟨?_, ?_, ?_⟩
  · norm_num [TWelfordCovariationCalculator.start,
      TWelfordCovariationCalculator.addPair]
  · norm_num [TWelfordCovariationCalculator.start, welfordAddSpecOrder]
  · intro h
    have h2 := congrArg TWelfordCovariationCalculator.SumProducts h
    norm_num [TWelfordCovariationCalculator.start,
      TWelfordCovariationCalculator.addPair, welfordAddSpecOrder] at h2

/-- C1 (amended): `Add(x, y)` first increments the count to n, then advances
`meanX` by `(x - meanX)/n`, then advances `C` by
`(x - newMeanX) * (y - meanY)` — the post-update `meanX` and the pre-update
`meanY` — and finally advances `meanY` by `(y - meanY)/n`; so `C` is updated
after `meanX` is advanced but before `meanY` is advanced. -/
theorem welford_add_order (s : TWelfordCovariationCalculator) (x y : ℚ) :
    (s.addPair x y).Count = s.Count + 1 ∧
    (s.addPair x y).MeanX = s.MeanX + (x - s.MeanX) / ((s.Count + 1 : ℕ) : ℚ) ∧
    (s.addPair x y).SumProducts =
      s.SumProducts + (x - (s.addPair x y).MeanX) * (y - s.MeanY) ∧
    (s.addPair x y).MeanY = s.MeanY + (y - s.MeanY) / ((s.Count + 1 : ℕ) : ℚ) :=
  ⟨rfl, rfl, rfl, rfl⟩

/-- C2: feeding the online mean-centering variant the samples
`(1,1), (2,2), (3,3)` from a fresh state yields `covariance() = 2/3`. -/
theorem welford_123_covariation :
    (welfordRun [(1, 1), (2, 2), (3, 3)]).covariation = 2 / 3 := by
  norm_num [welfordRun, TWelfordCovariationCalculator.start,
    TWelfordCovariationCalculator.addPair,
    TWelfordCovariationCalculator.covariation]

/-- C4: for every Kahan accumulator state and every value `v`, `add(v)`
computes `correctedInput = v - pendingCorrection`, then
`newTotal = total + correctedInput`, then sets
`pendingCorrection = (newTotal - total) - correctedInput` and
`total = newTotal`; and `value()` always returns `total + pendingCorrection`. -/
theorem kahan_add_steps (a : TKahanAccumulator) (v : ℚ) :
    (a.addValue v).Sum = a.Sum + (v - a.Addition) ∧
    (a.addValue v).Addition =
      ((a.Sum + (v - a.Addition)) - a.Sum) - (v - a.Addition) ∧
    a.toRat = a.Sum + a.Addition :=
  ⟨rfl, rfl, rfl⟩

/-- `Error(target, value)` from the source:
`fabs(value - target) / fabs(target)`. -/
def Error (target value : ℚ) : ℚ :=
  |value - target| / |target|

/-- The three calculators `main` advances in lockstep, in the order they are
pushed into the `calculators` vector: Dummy, Kahan, Welford. -/
structure Calculators where
  dummy : TTypedCovariationCalculator ℚ
  kahan : TTypedCovariationCalculator TKahanAccumulator
  welford : TWelfordCovariationCalculator

/-- Freshly constructed calculators. -/
def Calculators.begin : Calculators :=
  { dummy := TTypedCovariationCalculator.start ratOps
    kahan := TTypedCovariationCalculator.start kahanOps
    welford := TWelfordCovariationCalculator.start }

/-- One lockstep `Add(x, y)` on all three calculators. -/
def Calculators.addPair (c : Calculators) (x y : ℚ) : Calculators :=
  { dummy := c.dummy.addPair ratOps x y
    kahan := c.kahan.addPair kahanOps x y
    welford := c.welford.addPair x y }

/-- The three current `Covariation()` estimates, in calculator order. -/
def Calculators.covariations (c : Calculators) : List ℚ :=
  [c.dummy.covariation ratOps, c.kahan.covariation kahanOps,
    c.welford.covariation]

/-- The checkpoint test `i && (i % interval == 0)` guarding the reporting
block of `main`'s inner loop, with `interval = count / 100`. -/
def isCheckpoint (interval i : ℕ) : Bool :=
  i != 0 && i % interval == 0

/-- State of `main`'s inner loop for one mean configuration: the sign-flipped
offsets `xDiff`/`yDiff`, the calculators, the per-variant running maximum
errors, and the checkpoint rows emitted so far (sample index together with
the per-variant error-percent row). -/
structure TLoopState where
  xDiff : ℚ
  yDiff : ℚ
  calcs : Calculators
  maxErrors : List ℚ
  checkpoints : List (ℕ × List ℚ)

/-- One iteration of `main`'s inner loop at index `i`: if `i` is a checkpoint,
record `Error(actual, covariation) * 100` for each calculator and fold it
into the running maxima; then flip both offsets and feed
`(mean + xDiff, mean + yDiff)` to every calculator. -/
def loopIter (mean actual : ℚ) (interval : ℕ) (st : TLoopState) (i : ℕ) :
    TLoopState :=
  let st1 :=
    if isCheckpoint interval i then
      let errors := st.calcs.covariations.map fun est => Error actual est * 100
      { st with
          checkpoints := st.checkpoints ++ [(i, errors)]
          maxErrors := List.zipWith max st.maxErrors errors }
    else st
  let xDiff := -st1.xDiff
  let yDiff := -st1.yDiff
  { st1 with
      xDiff := xDiff
      yDiff := yDiff
      calcs := st1.calcs.addPair (mean + xDiff) (mean + yDiff) }

/-- `main`'s inner loop for one mean configuration: `xDiff = yDiff = 1`,
`actualCovariation = xDiff * yDiff`, `maxErrors` initialized to zeros, and
`count` iterations of `loopIter`.  `count` and the checkpoint interval
(`count / 100` in the source) are kept as parameters. -/
def driveLoop (mean : ℚ) (count interval : ℕ) : TLoopState :=
  let xDiff : ℚ := 1
  let yDiff : ℚ := 1
  let actualCovariation := xDiff * yDiff
  (List.range count).foldl (loopIter mean actualCovariation interval)
    { xDiff := xDiff, yDiff := yDiff, calcs := Calculators.begin
      maxErrors := [0, 0, 0], checkpoints := [] }

/-- The offset value after `n` sign flips (it starts at 1). -/
def diffAfter (n : ℕ) : ℚ :=
  if n % 2 = 0 then 1 else -1

/-- The offset actually fed at iteration `i` (flipped before the `Add`). -/
def sampleDiff (i : ℕ) : ℚ :=
  if i % 2 = 0 then -1 else 1

/-- The calculators' state after the loop's first `n` samples. -/
def calcsAfter (mean : ℚ) (n : ℕ) : Calculators :=
  (List.range n).foldl
    (fun c i => c.addPair (mean + sampleDiff i) (mean + sampleDiff i))
    Calculators.begin

/-- The per-variant error-percent row recorded at checkpoint `i`. -/
def checkpointRow (mean : ℚ) (i : ℕ) : List ℚ :=
  (calcsAfter mean i).covariations.map fun est => Error 1 est * 100

/-- The checkpoint rows emitted during the first `count` iterations. -/
def checkpointsUpTo (mean : ℚ) (interval count : ℕ) : List (ℕ × List ℚ) :=
  ((List.range count).filter (isCheckpoint interval)).map
    fun i => (i, checkpointRow mean i)

/-- Folding `TTypedCovariationCalculator<double>::Add` over a sample list
accumulates the plain sums of x, of y, and of the products, and adds the list
length to the count. -/
theorem dummyFold_fields (samples : List (ℚ × ℚ)) :
    ∀ s : TTypedCovariationCalculator ℚ,
      samples.foldl (fun t p => t.addPair ratOps p.1 p.2) s =
        { Count := s.Count + samples.length
          SumX := s.SumX + (samples.map Prod.fst).sum
          SumY := s.SumY + (samples.map Prod.snd).sum
          SumProducts := s.SumProducts + (samples.map fun p => p.1 * p.2).sum } := by
  induction samples with
  | nil => intro s; simp
  | cons p ps ih =>
      intro s
      simp only [List.foldl_cons, List.map_cons, List.sum_cons, List.length_cons]
      rw [ih]
      simp only [TTypedCovariationCalculator.addPair, ratOps,
        TTypedCovariationCalculator.mk.injEq]
      refine ⟨by omega, by ring, by ring, by ring⟩

/-- C3: the naive (Dummy) variant maintains `sumX = Σx`, `sumY = Σy`,
`sumXY = Σ(x·y)`, and with `n = count ≥ 1` its `Covariation()` returns
`(sumXY - sumX·sumY/n) / n`. -/
theorem dummy_aggregates (samples : List (ℚ × ℚ))
    (_h : 1 ≤ (dummyRun samples).Count) :
    (dummyRun samples).SumX = (samples.map Prod.fst).sum ∧
    (dummyRun samples).SumY = (samples.map Prod.snd).sum ∧
    (dummyRun samples).SumProducts = (samples.map fun p => p.1 * p.2).sum ∧
    (dummyRun samples).covariation ratOps =
      ((samples.map fun p => p.1 * p.2).sum -
        (samples.map Prod.fst).sum * (samples.map Prod.snd).sum /
          ((dummyRun samples).Count : ℚ)) / ((dummyRun samples).Count : ℚ) := by
  unfold dummyRun
  rw [dummyFold_fields]
  simp [TTypedCovariationCalculator.covariation,
    TTypedCovariationCalculator.start, ratOps]

/-- Witness for C3 at the concrete sample list `[(1,2), (3,4)]`. -/
theorem dummy_aggregates_witness :
    1 ≤ (dummyRun [(1, 2), (3, 4)]).Count ∧
    ((dummyRun [(1, 2), (3, 4)]).SumX =
        (([(1, 2), (3, 4)] : List (ℚ × ℚ)).map Prod.fst).sum ∧
      (dummyRun [(1, 2), (3, 4)]).SumY =
        (([(1, 2), (3, 4)] : List (ℚ × ℚ)).map Prod.snd).sum ∧
      (dummyRun [(1, 2), (3, 4)]).SumProducts =
        (([(1, 2), (3, 4)] : List (ℚ × ℚ)).map fun p => p.1 * p.2).sum ∧
      (dummyRun [(1, 2), (3, 4)]).covariation ratOps =
        ((([(1, 2), (3, 4)] : List (ℚ × ℚ)).map fun p => p.1 * p.2).sum -
          (([(1, 2), (3, 4)] : List (ℚ × ℚ)).map Prod.fst).sum *
            (([(1, 2), (3, 4)] : List (ℚ × ℚ)).map Prod.snd).sum /
            (((dummyRun [(1, 2), (3, 4)]).Count : ℕ) : ℚ)) /
          (((dummyRun [(1, 2), (3, 4)]).Count : ℕ) : ℚ)) :=
  ⟨by simp [dummyRun, TTypedCovariationCalculator.start,
      TTypedCovariationCalculator.addPair, ratOps],
    dummy_aggregates [(1, 2), (3, 4)]
      (by simp [dummyRun, TTypedCovariationCalculator.start,
        TTypedCovariationCalculator.addPair, ratOps])⟩

/-- C5: with zero samples ingested, `Covariation()` does NOT signal a
precondition failure: each variant performs the division with divisor
`Count = 0` anyway and silently returns a junk value (`NaN` in IEEE double;
in this exact-arithmetic embedding, division by zero yields `0`). -/
theorem covariation_zero_count_silent :
    (TTypedCovariationCalculator.start ratOps).covariation ratOps = 0 ∧
    (TTypedCovariationCalculator.start kahanOps).covariation kahanOps = 0 ∧
    TWelfordCovariationCalculator.start.covariation = 0 := by
  refine ⟨?_, ?_, ?_⟩
  · simp [TTypedCovariationCalculator.covariation,
      TTypedCovariationCalculator.start, ratOps]
  · simp [TTypedCovariationCalculator.covariation,
      TTypedCovariationCalculator.start, kahanOps, TKahanAccumulator.mk0,
      TKahanAccumulator.toRat]
  · simp [TWelfordCovariationCalculator.covariation,
      TWelfordCovariationCalculator.start]

/-- C7: `Covariation()` and `Name()` are observers: for every variant and
every state they return the state unchanged, so two consecutive calls with no
intervening `Add` return identical results. -/
theorem covariation_read_only :
    (∀ (α : Type) (ops : AccOps α) (s : TTypedCovariationCalculator α)
        (tag : String),
      (s.covariationOp ops).2 = s ∧ (s.nameOp tag).2 = s ∧
      ((s.covariationOp ops).2.covariationOp ops).1 = (s.covariationOp ops).1 ∧
      ((s.nameOp tag).2.nameOp tag).1 = (s.nameOp tag).1) ∧
    (∀ s : TWelfordCovariationCalculator,
      s.covariationOp.2 = s ∧ s.nameOp.2 = s ∧
      (s.covariationOp.2.covariationOp).1 = s.covariationOp.1 ∧
      (s.nameOp.2.nameOp).1 = s.nameOp.1) :=
  ⟨fun _ _ _ _ => ⟨rfl, rfl, rfl, rfl⟩, fun _ => ⟨rfl, rfl, rfl, rfl⟩⟩

/-- Folding typed-calculator `Add` over a sample list adds the list length to
the count, for any accumulator type. -/
theorem typedFold_count {α : Type} (ops : AccOps α) (samples : List (ℚ × ℚ)) :
    ∀ s : TTypedCovariationCalculator α,
      (samples.foldl (fun t p => t.addPair ops p.1 p.2) s).Count =
        s.Count + samples.length := by
  induction samples with
  | nil => intro s; simp
  | cons p ps ih =>
      intro s
      simp only [List.foldl_cons, List.length_cons]
      rw [ih]
      simp only [TTypedCovariationCalculator.addPair]
      omega

/-- Folding Welford `Add` over a sample list adds the list length to the
count. -/
theorem welfordFold_count (samples : List (ℚ × ℚ)) :
    ∀ s : TWelfordCovariationCalculator,
      (samples.foldl (fun t p => t.addPair p.1 p.2) s).Count =
        s.Count + samples.length := by
  induction samples with
  | nil => intro s; simp
  | cons p ps ih =>
      intro s
      simp only [List.foldl_cons, List.length_cons]
      rw [ih]
      simp only [TWelfordCovariationCalculator.addPair]
      omega

/-- C8: every variant's `Add` increments the count by exactly one and never
decreases it; the observers `Covariation()` and `Name()` leave the count
unchanged; consequently after ingesting a list of n samples from a fresh
state the count is exactly n, and the count (a natural number, hence
non-negative) is monotonically non-decreasing across every operation. -/
theorem add_increments_count :
    (∀ (α : Type) (ops : AccOps α) (s : TTypedCovariationCalculator α)
        (x y : ℚ),
      (s.addPair ops x y).Count = s.Count + 1 ∧
      s.Count ≤ (s.addPair ops x y).Count) ∧
    (∀ (s : TWelfordCovariationCalculator) (x y : ℚ),
      (s.addPair x y).Count = s.Count + 1 ∧ s.Count ≤ (s.addPair x y).Count) ∧
    (∀ (α : Type) (ops : AccOps α) (s : TTypedCovariationCalculator α)
        (tag : String),
      (s.covariationOp ops).2.Count = s.Count ∧
      (s.nameOp tag).2.Count = s.Count) ∧
    (∀ s : TWelfordCovariationCalculator,
      s.covariationOp.2.Count = s.Count ∧ s.nameOp.2.Count = s.Count) ∧
    (∀ samples : List (ℚ × ℚ),
      (dummyRun samples).Count = samples.length ∧
      (kahanRun samples).Count = samples.length ∧
      (welfordRun samples).Count = samples.length) := by
  refine ⟨fun α ops s x y => ⟨rfl, by simp [TTypedCovariationCalculator.addPair]⟩,
    fun s x y => ⟨rfl, by simp [TWelfordCovariationCalculator.addPair]⟩,
    fun α ops s tag => ⟨rfl, rfl⟩,
    fun s => ⟨rfl, rfl⟩,
    fun samples => ⟨?_, ?_, ?_⟩⟩
  · rw [dummyRun, typedFold_count]
    simp [TTypedCovariationCalculator.start]
  · rw [kahanRun, typedFold_count]
    simp [TTypedCovariationCalculator.start]
  · rw [welfordRun, welfordFold_count]
    simp [TWelfordCovariationCalculator.start]

/-- In exact arithmetic a single Kahan `+=` always leaves the pending
correction at exactly 0. -/
theorem kahanAdd_addition_zero (a : TKahanAccumulator) (v : ℚ) :
    (a.addValue v).Addition = 0 := by
  simp only [TKahanAccumulator.addValue]
  ring

/-- In exact arithmetic, folding Kahan `+=` over a value list from a state
with zero pending correction accumulates the plain sum and keeps the pending
correction at 0. -/
theorem kahanFold_sum (vs : List ℚ) :
    ∀ a : TKahanAccumulator, a.Addition = 0 →
      (vs.foldl TKahanAccumulator.addValue a).Sum = a.Sum + vs.sum ∧
      (vs.foldl TKahanAccumulator.addValue a).Addition = 0 := by
  induction vs with
  | nil => intro a hA; simp [hA]
  | cons v vs ih =>
      intro a hA
      simp only [List.foldl_cons, List.sum_cons]
      obtain ⟨hS, hA2⟩ := ih (a.addValue v) (kahanAdd_addition_zero a v)
      refine ⟨?_, hA2⟩
      rw [hS]
      simp only [TKahanAccumulator.addValue, hA]
      ring

/-- The Kahan calculator's fold decomposes componentwise: each accumulator
field is the Kahan fold of the corresponding projected value list. -/
theorem kahanFold_proj (samples : List (ℚ × ℚ)) :
    ∀ s : TTypedCovariationCalculator TKahanAccumulator,
      (samples.foldl (fun t p => t.addPair kahanOps p.1 p.2) s).SumX =
        (samples.map Prod.fst).foldl TKahanAccumulator.addValue s.SumX ∧
      (samples.foldl (fun t p => t.addPair kahanOps p.1 p.2) s).SumY =
        (samples.map Prod.snd).foldl TKahanAccumulator.addValue s.SumY ∧
      (samples.foldl (fun t p => t.addPair kahanOps p.1 p.2) s).SumProducts =
        (samples.map fun p => p.1 * p.2).foldl TKahanAccumulator.addValue
          s.SumProducts := by
  induction samples with
  | nil => intro s; exact ⟨rfl, rfl, rfl⟩
  | cons p ps ih =>
      intro s
      simp only [List.foldl_cons, List.map_cons]
      exact ih (s.addPair kahanOps p.1 p.2)

/-- C10: in exact arithmetic the Kahan accumulator's pending correction is 0
after every `add`, its represented value is the plain running sum, and the
Kahan covariance calculator returns exactly the same `Covariation()` as the
naive (Dummy) calculator on every sample sequence. -/
theorem kahan_exact_refines_dummy :
    (∀ (a : TKahanAccumulator) (v : ℚ), (a.addValue v).Addition = 0) ∧
    (∀ vs : List ℚ,
      (vs.foldl TKahanAccumulator.addValue (TKahanAccumulator.mk0 0)).toRat =
        vs.sum) ∧
    (∀ samples : List (ℚ × ℚ),
      (kahanRun samples).covariation kahanOps =
        (dummyRun samples).covariation ratOps) := by
  refine ⟨kahanAdd_addition_zero, fun vs => ?_, fun samples => ?_⟩
  · obtain ⟨hS, hA⟩ := kahanFold_sum vs (TKahanAccumulator.mk0 0) rfl
    simp only [TKahanAccumulator.toRat]
    rw [hS, hA]
    simp [TKahanAccumulator.mk0]
  · obtain ⟨hX, hY, hP⟩ :=
      kahanFold_proj samples (TTypedCovariationCalculator.start kahanOps)
    have hC := typedFold_count kahanOps samples
      (TTypedCovariationCalculator.start kahanOps)
    obtain ⟨hXS, hXA⟩ := kahanFold_sum (samples.map Prod.fst)
      (TKahanAccumulator.mk0 0) rfl
    obtain ⟨hYS, hYA⟩ := kahanFold_sum (samples.map Prod.snd)
      (TKahanAccumulator.mk0 0) rfl
    obtain ⟨hPS, hPA⟩ := kahanFold_sum (samples.map fun p => p.1 * p.2)
      (TKahanAccumulator.mk0 0) rfl
    rw [kahanRun, dummyRun, dummyFold_fields]
    simp only [TTypedCovariationCalculator.covariation, kahanOps, ratOps,
      TKahanAccumulator.toRat, hX, hY, hP, hC,
      TTypedCovariationCalculator.start, TKahanAccumulator.mk0] at *
    rw [hXS, hXA, hYS, hYA, hPS, hPA]
    norm_num

/-- Flipping the offset once negates `diffAfter`. -/
theorem diffAfter_succ (n : ℕ) : diffAfter (n + 1) = -diffAfter n := by
  rcases Nat.mod_two_eq_zero_or_one n with h | h <;>
    simp [diffAfter, Nat.add_mod, h]

/-- The offset fed at iteration `n` is the negation of the offset after `n`
flips. -/
theorem sampleDiff_eq (n : ℕ) : sampleDiff n = -diffAfter n := by
  rcases Nat.mod_two_eq_zero_or_one n with h | h <;>
    simp [sampleDiff, diffAfter, h]

/-- Unrolling one sample off `calcsAfter`. -/
theorem calcsAfter_succ (mean : ℚ) (n : ℕ) :
    calcsAfter mean (n + 1) =
      (calcsAfter mean n).addPair (mean + sampleDiff n) (mean + sampleDiff n) := by
  rw [calcsAfter, calcsAfter, List.range_succ, List.foldl_append,
    List.foldl_cons, List.foldl_nil]

/-- Unrolling one iteration off `checkpointsUpTo`. -/
theorem checkpointsUpTo_succ (mean : ℚ) (interval n : ℕ) :
    checkpointsUpTo mean interval (n + 1) =
      checkpointsUpTo mean interval n ++
        (if isCheckpoint interval n then [(n, checkpointRow mean n)]
          else []) := by
  rw [checkpointsUpTo, checkpointsUpTo, List.range_succ, List.filter_append,
    List.map_append]
  by_cases h : isCheckpoint interval n <;> simp [h]

/-- Invariant of `main`'s inner loop: after `count` iterations the offsets
carry `count` sign flips, the calculators have ingested exactly the `count`
generated samples, the emitted checkpoint rows are `checkpointsUpTo`, and the
running maxima equal the pointwise-max fold of the emitted rows. -/
theorem driveLoop_spec (mean : ℚ) (interval : ℕ) :
    ∀ count : ℕ,
      (driveLoop mean count interval).xDiff = diffAfter count ∧
      (driveLoop mean count interval).yDiff = diffAfter count ∧
      (driveLoop mean count interval).calcs = calcsAfter mean count ∧
      (driveLoop mean count interval).checkpoints =
        checkpointsUpTo mean interval count ∧
      (driveLoop mean count interval).maxErrors =
        ((checkpointsUpTo mean interval count).map Prod.snd).foldl
          (fun acc errs => List.zipWith max acc errs) [0, 0, 0] := by
  intro count
  induction count with
  | zero => exact ⟨rfl, rfl, rfl, rfl, rfl⟩
  | succ n ih =>
      obtain ⟨hx, hy, hc, hcp, hm⟩ := ih
      have hstep : driveLoop mean (n + 1) interval =
          loopIter mean (1 * 1) interval (driveLoop mean n interval) n := by
        rw [driveLoop, driveLoop, List.range_succ, List.foldl_append,
          List.foldl_cons, List.foldl_nil]
      have h11 : (1 * 1 : ℚ) = 1 := one_mul 1
      rw [hstep, h11, checkpointsUpTo_succ, calcsAfter_succ]
      by_cases hchk : isCheckpoint interval n
      · simp only [loopIter, hchk, if_true]
        refine ⟨?_, ?_, ?_, ?_, ?_⟩
        · simp [hx, diffAfter_succ]
        · simp [hy, diffAfter_succ]
        · simp [hc, hx, hy, sampleDiff_eq]
        · simp [hcp, hc, checkpointRow]
        · simp [hm, hcp, hc, checkpointRow]
      · simp only [loopIter, hchk, if_false]
        refine ⟨?_, ?_, ?_, ?_, ?_⟩
        · simp [hx, diffAfter_succ]
        · simp [hy, diffAfter_succ]
        · simp [hc, hx, hy, sampleDiff_eq]
        · simp [hcp]
        · simp [hm]

/-- C6: the drive loop's `Error` is the relative error
`|value - target| / max(epsilonFloor, |target|)` with epsilon floor 0; at
every checkpoint index `i` the recorded row is `Error(analytic, estimate)*100`
for each variant's estimate after `i` samples; and the final `maxErrors` is
the pointwise running maximum of all recorded rows. -/
theorem drive_loop_error_tracking (mean : ℚ) (count interval : ℕ) :
    (∀ target value : ℚ,
      Error target value = |value - target| / max 0 |target|) ∧
    (driveLoop mean count interval).checkpoints =
      ((List.range count).filter (isCheckpoint interval)).map
        (fun i => (i, (calcsAfter mean i).covariations.map
          fun est => Error 1 est * 100)) ∧
    (driveLoop mean count interval).maxErrors =
      ((driveLoop mean count interval).checkpoints.map Prod.snd).foldl
        (fun acc errs => List.zipWith max acc errs) [0, 0, 0] := by
  obtain ⟨-, -, -, hcp, hm⟩ := driveLoop_spec mean interval count
  refine ⟨fun t v => ?_, ?_, ?_⟩
  · rw [Error, max_eq_right (abs_nonneg t)]
  · rw [hcp, checkpointsUpTo]
    simp only [checkpointRow]
  · rw [hm, hcp]

end Covariation
